import Mathlib

/-!
Shallow embedding of the `localllm-chat` infrastructure lifecycle manager
(src/config.rs, src/error.rs, src/container.rs, src/utils.rs, src/lib.rs).

Pure data derivations (container specs, image references, config defaults)
are embedded as Lean functions.  Effectful remote-engine interactions are
embedded as oracle-driven executors: the engine's responses are an input
function, and the executor returns the trace of engine operations actually
performed together with the `Result` value of the Rust function.
Rust `HashMap`s keyed by strings are embedded as association lists in
insertion order; `Option`/`Result` map to `Option`/`Except`.
-/

deriving instance DecidableEq for Except

namespace LocalLlmChat

/-- Embeds `AppError` from src/error.rs.  The payloads of foreign error
types (`std::io::Error`, `tauri::Error`, `bollard::errors::Error`,
`serde_yaml::Error`, `VarError`) are abstracted as strings; only the
variant (the error category) and the `GenericError` message matter to the
claims. -/
inductive AppError where
  | GenericError (msg : String)
  | EnvironmentVariableError (name : String) (err : String)
  | IOError (err : String)
  | TauriError (err : String)
  | DockerError (err : String)
  | YamlError (err : String)
deriving DecidableEq, Repr

/-- True exactly on the `GenericError` variant, the generic/unclassified
category of the error taxonomy. -/
def AppError.isGenericError : AppError → Bool
  | .GenericError _ => true
  | _ => false

/- ### Configuration model (src/config.rs) -/

/-- Embeds `BackendServiceHostVolumePathBinding` from src/config.rs. -/
structure BackendServiceHostVolumePathBinding where
  host_path : String
  container_path : String
deriving DecidableEq, Repr

/-- Embeds `LlmChatConfigExtraBackendService` from src/config.rs. -/
structure LlmChatConfigExtraBackendService where
  name : String
  image : String
  cmd : Option (List String)
  env : Option (List String)
  user : Option String
  ports : Option (List String)
  volume_bindings : Option (List BackendServiceHostVolumePathBinding)
  working_directory : Option String
deriving DecidableEq, Repr

/-- Embeds `LlmChatConfig` from src/config.rs. -/
structure LlmChatConfig where
  openwebui_image_tag : String
  tika_image_tag : String
  extra_backend_services : Option (List LlmChatConfigExtraBackendService)
deriving DecidableEq, Repr

/-- Embeds `openwebui_image_tag_default` from src/config.rs. -/
def openwebui_image_tag_default : String := "latest"

/-- Embeds `tika_image_tag_default` from src/config.rs. -/
def tika_image_tag_default : String := "latest-full"

/-- Embeds `impl Default for LlmChatConfig` from src/config.rs. -/
def LlmChatConfig.default : LlmChatConfig :=
  { openwebui_image_tag := "latest"
    tika_image_tag := "latest-full"
    extra_backend_services := none }

/-- The raw field values present in a configuration document before serde
defaulting is applied: `none` means the field is absent from the input. -/
structure RawLlmChatConfigFields where
  openwebui_image_tag : Option String
  tika_image_tag : Option String
  extra_backend_services : Option (List LlmChatConfigExtraBackendService)
deriving DecidableEq, Repr

/-- Embeds serde deserialization of `LlmChatConfig` as driven by its field
attributes in src/config.rs: `openwebui_image_tag` carries
`default = "openwebui_image_tag_default"`, `tika_image_tag` carries
`default = "tika_image_tag_default"`, and `extra_backend_services` is an
`Option` field (absent deserializes to `None`). -/
def deserializeLlmChatConfig (r : RawLlmChatConfigFields) : LlmChatConfig :=
  { openwebui_image_tag := r.openwebui_image_tag.getD openwebui_image_tag_default
    tika_image_tag := r.tika_image_tag.getD tika_image_tag_default
    extra_backend_services := r.extra_backend_services }

/- ### Health gate (src/utils.rs, wait_until_openwebui_is_healthy) -/

/-- Outcome of one polling attempt against `http://localhost:11690/health`:
the transport layer may fail (`reqwest::get` returns `Err`), the JSON body
may fail to decode into `OpenWebUiHealthStatus` (`response.json` returns
`Err`), or a body with a boolean `status` field is decoded. -/
inductive PollOutcome where
  | transportError
  | decodeError
  | status (b : Bool)
deriving DecidableEq, Repr

/-- A polling attempt passes the nested `if let Ok ... if let Ok ... if
status_data.status` chain in `wait_until_openwebui_is_healthy` exactly when
it decodes to a body whose `status` field is `true`. -/
def pollSucceeds : PollOutcome → Bool
  | .status true => true
  | _ => false

/-- Observable outcome of a run of the health gate: the returned `Result`,
the number of polling attempts performed, and the total seconds slept
(`std::thread::sleep(Duration::from_secs(1))` runs once after each
unsuccessful attempt). -/
structure HealthRun where
  result : Except AppError Unit
  attempts : Nat
  sleepSeconds : Nat
deriving DecidableEq, Repr

/-- Embeds the `while counter < 120` loop body of
`wait_until_openwebui_is_healthy` from src/utils.rs.  `polls` is the oracle
giving the outcome of the attempt made when `counter` has a given value;
`fuel` counts the loop iterations still permitted by the guard, so the
loop is entered with `fuel = 120 - counter`.  When the guard fails the
function falls through to the timeout branch, which (after a blocking
error dialog, a UI side effect not modelled) returns
`Err(AppError::GenericError("Startup took too long"))`. -/
def healthLoop (polls : Nat → PollOutcome) (counter : Nat) : Nat → HealthRun
  | 0 =>
    { result := .error (AppError.GenericError "Startup took too long")
      attempts := 0
      sleepSeconds := 0 }
  | fuel + 1 =>
    if pollSucceeds (polls counter) then
      { result := .ok (), attempts := 1, sleepSeconds := 0 }
    else
      let r := healthLoop polls (counter + 1) fuel
      { result := r.result
        attempts := r.attempts + 1
        sleepSeconds := r.sleepSeconds + 1 }

/-- Embeds `wait_until_openwebui_is_healthy` from src/utils.rs: `counter`
starts at `0` and the guard `counter < 120` admits 120 iterations. -/
def wait_until_openwebui_is_healthy (polls : Nat → PollOutcome) : HealthRun :=
  healthLoop polls 0 120

/- ### Container engine data (src/container.rs, bollard model types) -/

/-- Embeds `OPEN_WEBUI_IMAGE_BASE` from src/container.rs. -/
def OPEN_WEBUI_IMAGE_BASE : String := "ghcr.io/open-webui/open-webui"

/-- Embeds `TIKA_IMAGE_BASE` from src/container.rs. -/
def TIKA_IMAGE_BASE : String := "docker.io/apache/tika"

/-- The Open WebUI image reference built by
`format!("{}:{}", OPEN_WEBUI_IMAGE_BASE, app_config.openwebui_image_tag)`
in src/container.rs. -/
def openwebuiImage (cfg : LlmChatConfig) : String :=
  OPEN_WEBUI_IMAGE_BASE ++ ":" ++ cfg.openwebui_image_tag

/-- The Apache Tika image reference built by
`format!("{}:{}", TIKA_IMAGE_BASE, app_config.tika_image_tag)` in
src/container.rs. -/
def tikaImage (cfg : LlmChatConfig) : String :=
  TIKA_IMAGE_BASE ++ ":" ++ cfg.tika_image_tag

/-- Embeds bollard's `PortBinding` (only the fields src/container.rs sets:
`host_port`; `host_ip` stays at its default `None`). -/
structure PortBinding where
  host_ip : Option String
  host_port : Option String
deriving DecidableEq, Repr

/-- Embeds bollard's `HostConfig` restricted to the fields src/container.rs
sets: `binds` and `port_bindings`; every other field keeps its `Default`
value.  The `HashMap<String, Option<Vec<PortBinding>>>` of port bindings
is an association list in insertion order. -/
structure HostConfig where
  binds : Option (List String)
  port_bindings : Option (List (String × Option (List PortBinding)))
deriving DecidableEq, Repr

/-- Embeds bollard's `ContainerCreateBody` restricted to the fields
src/container.rs sets.  `networks` lists the keys inserted into
`NetworkingConfig.endpoints_config` (all values are
`EndpointSettings::default()`); `exposed_ports` lists the keys inserted
into the `HashMap<String, HashMap<(), ()>>` of exposed ports, in insertion
order. -/
structure ContainerCreateBody where
  image : Option String
  cmd : Option (List String)
  env : Option (List String)
  networks : Option (List String)
  exposed_ports : Option (List String)
  host_config : Option HostConfig
  user : Option String
  working_dir : Option String
deriving DecidableEq, Repr

/-- An all-`none` `ContainerCreateBody`, the embedding of
`ContainerCreateBody::default()` used by `..Default::default()`. -/
def ContainerCreateBody.default : ContainerCreateBody :=
  { image := none, cmd := none, env := none, networks := none
    exposed_ports := none, host_config := none, user := none
    working_dir := none }

/-- Embeds bollard's `NetworkCreateRequest` restricted to the fields
src/container.rs sets: `name`, `driver` and `options` (a
`HashMap<String, String>` embedded as an association list). -/
structure NetworkCreateRequest where
  name : String
  driver : Option String
  options : Option (List (String × String))
deriving DecidableEq, Repr

/-- The `NetworkCreateRequest` built by `create_frontend_network` in
src/container.rs: name `local_llm_frontend`, bridge driver, and the
single driver option restricting host port binding to loopback. -/
def frontendNetworkRequest : NetworkCreateRequest :=
  { name := "local_llm_frontend"
    driver := some "bridge"
    options := some [("com.docker.network.bridge.host_binding_ipv4", "127.0.0.1")] }

/-- The `NetworkCreateRequest` built by `create_backend_network` in
src/container.rs: name `local_llm_backend`, everything else left at
`Default::default()` (no driver, no options). -/
def backendNetworkRequest : NetworkCreateRequest :=
  { name := "local_llm_backend"
    driver := none
    options := none }

/- ### Container specs derived from the configuration (src/container.rs) -/

/-- The `ContainerCreateBody` built by `create_openwebui_container` in
src/container.rs.  `data_dir` is the host data directory after
`to_string_lossy().to_string()`. -/
def openwebuiContainerBody (cfg : LlmChatConfig) (data_dir : String) :
    ContainerCreateBody :=
  { ContainerCreateBody.default with
    image := some (openwebuiImage cfg)
    env := some ["ENV=dev", "WEBUI_AUTH=false"]
    networks := some ["local_llm_frontend", "local_llm_backend"]
    exposed_ports := some ["8080/tcp"]
    host_config := some
      { binds := some [data_dir ++ ":/app/backend/data"]
        port_bindings := some
          [("8080/tcp", some [{ host_ip := none, host_port := some "11690" }])] } }

/-- The container name that `create_openwebui_container` passes both to
`CreateContainerOptionsBuilder::name` and to `start_container`. -/
def openwebuiContainerName : String := "local_llm_openwebui"

/-- The `ContainerCreateBody` built by `create_tika_container` in
src/container.rs. -/
def tikaContainerBody (cfg : LlmChatConfig) : ContainerCreateBody :=
  { ContainerCreateBody.default with
    image := some (tikaImage cfg)
    networks := some ["local_llm_backend"]
    exposed_ports := some ["9998/tcp"] }

/-- The container name that `create_tika_container` passes both to
`CreateContainerOptionsBuilder::name` and to `start_container`. -/
def tikaContainerName : String := "local_llm_tika"

/-- The container name `format!("local_llm_{}", extra_service.name)` built
by `create_extra_service_container` in src/container.rs. -/
def extraServiceContainerName (svc : LlmChatConfigExtraBackendService) : String :=
  "local_llm_" ++ svc.name

/-- The `hostPath:containerPath` bind string built for one
`BackendServiceHostVolumePathBinding` by `create_extra_service_container`. -/
def volumeBindString (v : BackendServiceHostVolumePathBinding) : String :=
  v.host_path ++ ":" ++ v.container_path

/-- The `ContainerCreateBody` built by `create_extra_service_container` in
src/container.rs: image/cmd/env/user/working_dir are passed through from
the service config, the only network joined is `local_llm_backend`, the
exposed-ports map is filled from `extra_service.ports` (empty when the
field is absent), and `host_config` is `Some` with the translated binds
exactly when `volume_bindings` is `Some`. -/
def extraServiceContainerBody (svc : LlmChatConfigExtraBackendService) :
    ContainerCreateBody :=
  { ContainerCreateBody.default with
    image := some svc.image
    cmd := svc.cmd
    env := svc.env
    networks := some ["local_llm_backend"]
    exposed_ports := some (svc.ports.getD [])
    host_config := svc.volume_bindings.map fun vbs =>
      { binds := some (vbs.map volumeBindString), port_bindings := none }
    user := svc.user
    working_dir := svc.working_directory }

/- ### Image provisioning (src/container.rs, pull_required_images) -/

/-- Embeds one record of a `create_image` progress stream (bollard's
`CreateImageInfo`): the `id` and `status` fields printed by `pull_image`. -/
structure PullProgress where
  id : Option String
  status : Option String
deriving DecidableEq, Repr

/-- Embeds `pull_image` from src/container.rs: the pull stream is consumed
record by record; an `Ok` record is printed and the loop continues, the
first `Err` record is returned as `AppError::DockerError`, and a stream
that ends without an error yields `Ok(())`.  The oracle `stream` gives the
already-classified items of the stream (an `Except` per item, errors
already wrapped in `AppError.DockerError`). -/
def pull_image : List (Except AppError PullProgress) → Except AppError Unit
  | [] => .ok ()
  | .ok _ :: rest => pull_image rest
  | .error e :: _ => .error e

/-- The image list built by `pull_required_images` in src/container.rs:
`vec![open_webui_image, tika_image]` followed by a push of
`extra_service.image` for each extra service in config order. -/
def requiredImages (cfg : LlmChatConfig) : List String :=
  [openwebuiImage cfg, tikaImage cfg] ++
    (cfg.extra_backend_services.getD []).map (·.image)

/-- The `for image in images { pull_image(&image).await?; }` loop of
`pull_required_images`: pulls each image in order, returning the trace of
images for which a pull was requested and the propagated result.  The
first failing pull aborts the loop via `?`. -/
def pullImagesLoop (streams : String → List (Except AppError PullProgress)) :
    List String → List String × Except AppError Unit
  | [] => ([], .ok ())
  | img :: rest =>
    match pull_image (streams img) with
    | .ok _ =>
      let r := pullImagesLoop streams rest
      (img :: r.1, r.2)
    | .error e => ([img], .error e)

/-- Embeds `pull_required_images` from src/container.rs, with the engine's
per-image pull streams supplied by the oracle `streams`. -/
def pull_required_images (streams : String → List (Except AppError PullProgress))
    (cfg : LlmChatConfig) : List String × Except AppError Unit :=
  pullImagesLoop streams (requiredImages cfg)

/- ### Topology provisioning (src/container.rs, create_infrastructure) -/

/-- One remote call against the container engine, as issued by
src/container.rs.  Creation/start calls are issued by
`create_infrastructure`'s helpers; stop/remove calls only by the teardown
functions. -/
inductive EngineOp where
  | createNetwork (req : NetworkCreateRequest)
  | createContainer (name : String) (body : ContainerCreateBody)
  | startContainer (name : String)
  | stopContainer (name : String)
  | removeContainer (name : String) (force : Bool)
  | removeNetwork (name : String)
deriving DecidableEq, Repr

/-- True on the teardown calls (stop/remove); `create_infrastructure`
performs none of these. -/
def EngineOp.isTeardown : EngineOp → Bool
  | .stopContainer _ => true
  | .removeContainer _ _ => true
  | .removeNetwork _ => true
  | _ => false

/-- The sequence of engine calls `create_infrastructure` in
src/container.rs makes when nothing fails: frontend network, backend
network, create+start Open WebUI, create+start Tika, then create+start one
container per extra service in config-list order.  (Each helper's
`Docker::connect_with_local_defaults()` is folded into the outcome of its
first engine call.) -/
def infrastructureOps (cfg : LlmChatConfig) (data_dir : String) : List EngineOp :=
  [EngineOp.createNetwork frontendNetworkRequest,
   EngineOp.createNetwork backendNetworkRequest,
   EngineOp.createContainer openwebuiContainerName (openwebuiContainerBody cfg data_dir),
   EngineOp.startContainer openwebuiContainerName,
   EngineOp.createContainer tikaContainerName (tikaContainerBody cfg),
   EngineOp.startContainer tikaContainerName] ++
  (cfg.extra_backend_services.getD []).flatMap fun svc =>
    [EngineOp.createContainer (extraServiceContainerName svc) (extraServiceContainerBody svc),
     EngineOp.startContainer (extraServiceContainerName svc)]

/-- Runs a planned sequence of engine calls in order with outcomes given by
the oracle `exec`, mirroring the `?`-propagation in
`create_infrastructure` and its helpers: each call is issued only after
all previous calls succeeded, and the first failure returns immediately.
Yields the trace of calls actually issued and the propagated result. -/
def runEngineOps (exec : EngineOp → Except AppError Unit) :
    List EngineOp → List EngineOp × Except AppError Unit
  | [] => ([], .ok ())
  | op :: rest =>
    match exec op with
    | .ok _ =>
      let r := runEngineOps exec rest
      (op :: r.1, r.2)
    | .error e => ([op], .error e)

/-- Embeds `create_infrastructure` from src/container.rs: run the fixed
call sequence for this config and data directory against the engine
oracle. -/
def create_infrastructure (exec : EngineOp → Except AppError Unit)
    (cfg : LlmChatConfig) (data_dir : String) :
    List EngineOp × Except AppError Unit :=
  runEngineOps exec (infrastructureOps cfg data_dir)

/- ### Teardown (src/container.rs, delete_containers / delete_networks) -/

/-- Embeds `str::trim_matches('/')` as applied to the container name taken
from `container.names.first()` in `delete_containers`. -/
def trimSlashes (s : String) : String :=
  String.mk (((s.data.dropWhile (· == '/')).reverse.dropWhile (· == '/')).reverse)

/-- The container names `delete_containers` in src/container.rs filters
on: the two fixed names plus `local_llm_{name}` for each extra service in
config order. -/
def managedContainerNames (cfg : LlmChatConfig) : List String :=
  ["local_llm_openwebui", "local_llm_tika"] ++
    (cfg.extra_backend_services.getD []).map extraServiceContainerName

/-- The `for container in containers` loop of `delete_containers` in
src/container.rs.  `matched` is the engine's `list_containers` answer (the
first entry of each container's `names` vector); for each, the stop call's
result is discarded (`let _ = docker.stop_container(...)`), then the
force-remove call's failure propagates via `?`, aborting the loop.
Yields the trace of stop/remove calls issued and the propagated result. -/
def deleteContainersLoop (stopRes removeRes : String → Except AppError Unit) :
    List String → List EngineOp × Except AppError Unit
  | [] => ([], .ok ())
  | raw :: rest =>
    let name := trimSlashes raw
    let _ := stopRes name
    match removeRes name with
    | .ok _ =>
      let r := deleteContainersLoop stopRes removeRes rest
      (EngineOp.stopContainer name :: EngineOp.removeContainer name true :: r.1, r.2)
    | .error e =>
      ([EngineOp.stopContainer name, EngineOp.removeContainer name true], .error e)

/-- Embeds `delete_containers` from src/container.rs, with the engine's
`list_containers` answer and per-container stop/remove outcomes supplied
as oracles. -/
def delete_containers (matched : List String)
    (stopRes removeRes : String → Except AppError Unit) :
    List EngineOp × Except AppError Unit :=
  deleteContainersLoop stopRes removeRes matched

/-- The `for network in container_networks` loop of `delete_networks` in
src/container.rs: each matched network is removed in order; a removal
failure propagates via `?`, aborting the loop. -/
def deleteNetworksLoop (removeRes : String → Except AppError Unit) :
    List String → List EngineOp × Except AppError Unit
  | [] => ([], .ok ())
  | name :: rest =>
    match removeRes name with
    | .ok _ =>
      let r := deleteNetworksLoop removeRes rest
      (EngineOp.removeNetwork name :: r.1, r.2)
    | .error e => ([EngineOp.removeNetwork name], .error e)

/-- Embeds `delete_networks` from src/container.rs, with the engine's
`list_networks` answer (names matching the `local_llm_` filter) and
per-network removal outcomes supplied as oracles. -/
def delete_networks (matched : List String)
    (removeRes : String → Except AppError Unit) :
    List EngineOp × Except AppError Unit :=
  deleteNetworksLoop removeRes matched

/- ### The run workflow's provisioning phase (src/lib.rs, run) -/

/-- Embeds lines 120-128 of `run` in src/lib.rs: after
`create_infrastructure` fails, an error dialog is shown (UI, not
modelled), then `cleanup_infrastructure(&app_config).await?` runs — its
failure propagates via `?` — and only if it succeeded is the original
`container_err` returned.  The boolean records whether
`cleanup_infrastructure` was invoked. -/
def runProvisioningPhase (createRes cleanupRes : Except AppError Unit) :
    Bool × Except AppError Unit :=
  match createRes with
  | .ok _ => (false, .ok ())
  | .error container_err =>
    match cleanupRes with
    | .ok _ => (true, .error container_err)
    | .error cleanup_err => (true, .error cleanup_err)

/- ### Helper lemmas: health gate -/

theorem healthLoop_attempts_le (polls : Nat → PollOutcome) :
    ∀ fuel counter, (healthLoop polls counter fuel).attempts ≤ fuel := by
  intro fuel
  induction fuel with
  | zero => intro counter; simp [healthLoop]
  | succ n ih =>
    intro counter
    by_cases h : pollSucceeds (polls counter) = true
    · simp [healthLoop, h]
    · simp only [healthLoop, h, if_false, Bool.false_eq_true]
      exact Nat.succ_le_succ (ih (counter + 1))

theorem healthLoop_first_success (polls : Nat → PollOutcome) :
    ∀ fuel counter k, k < fuel →
      pollSucceeds (polls (counter + k)) = true →
      (∀ j, j < k → pollSucceeds (polls (counter + j)) = false) →
      healthLoop polls counter fuel =
        { result := .ok (), attempts := k + 1, sleepSeconds := k } := by
  intro fuel
  induction fuel with
  | zero => intro counter k hk; omega
  | succ n ih =>
    intro counter k hk hs hprev
    cases k with
    | zero =>
      have hs0 : pollSucceeds (polls counter) = true := by simpa using hs
      simp [healthLoop, hs0]
    | succ m =>
      have h0 : pollSucceeds (polls counter) = false := by
        simpa using hprev 0 (Nat.succ_pos m)
      have hs' : pollSucceeds (polls (counter + 1 + m)) = true := by
        have : counter + 1 + m = counter + (m + 1) := by omega
        rw [this]; exact hs
      have hprev' : ∀ j, j < m → pollSucceeds (polls (counter + 1 + j)) = false := by
        intro j hj
        have : counter + 1 + j = counter + (j + 1) := by omega
        rw [this]; exact hprev (j + 1) (by omega)
      have hrec := ih (counter + 1) m (by omega) hs' hprev'
      simp [healthLoop, h0, hrec]

theorem healthLoop_all_fail (polls : Nat → PollOutcome) :
    ∀ fuel counter,
      (∀ k, k < fuel → pollSucceeds (polls (counter + k)) = false) →
      healthLoop polls counter fuel =
        { result := .error (AppError.GenericError "Startup took too long")
          attempts := fuel, sleepSeconds := fuel } := by
  intro fuel
  induction fuel with
  | zero => intro counter _; simp [healthLoop]
  | succ n ih =>
    intro counter hfail
    have h0 : pollSucceeds (polls counter) = false := by
      simpa using hfail 0 (Nat.succ_pos n)
    have hfail' : ∀ k, k < n → pollSucceeds (polls (counter + 1 + k)) = false := by
      intro k hk
      have : counter + 1 + k = counter + (k + 1) := by omega
      rw [this]; exact hfail (k + 1) (by omega)
    have hrec := ih (counter + 1) hfail'
    simp [healthLoop, h0, hrec]

/- ### C1 -/

/-- C1: the health gate returns success as soon as any single polled
response decodes to a body whose `status` field is `true` — when the first
successful attempt has index `k` (so exactly `k` prior attempts failed by
transport error, decode error, or a false status), it returns `Ok(())`
after `k + 1` attempts — it performs at most 120 polling attempts, it
declares timeout only after all 120 attempts were unsuccessful, and after
every unsuccessful attempt (and only those) it sleeps the fixed 1-second
interval, so a run with `k` unsuccessful attempts sleeps `k` seconds. -/
theorem c1_health_gate_first_success_bounded (polls : Nat → PollOutcome) :
    (wait_until_openwebui_is_healthy polls).attempts ≤ 120 ∧
    ((∃ k, k < 120 ∧ pollSucceeds (polls k) = true) →
      (wait_until_openwebui_is_healthy polls).result = Except.ok ()) ∧
    (∀ k, k < 120 → pollSucceeds (polls k) = true →
      (∀ j, j < k → pollSucceeds (polls j) = false) →
      wait_until_openwebui_is_healthy polls =
        { result := Except.ok (), attempts := k + 1, sleepSeconds := k }) ∧
    ((∀ k, k < 120 → pollSucceeds (polls k) = false) →
      wait_until_openwebui_is_healthy polls =
        { result := Except.error (AppError.GenericError "Startup took too long")
          attempts := 120, sleepSeconds := 120 }) := by
  have hfirst : ∀ k, k < 120 → pollSucceeds (polls k) = true →
      (∀ j, j < k → pollSucceeds (polls j) = false) →
      wait_until_openwebui_is_healthy polls =
        { result := Except.ok (), attempts := k + 1, sleepSeconds := k } := by
    intro k hk hs hprev
    have := healthLoop_first_success polls 120 0 k hk (by simpa using hs)
      (by intro j hj; simpa using hprev j hj)
    simpa [wait_until_openwebui_is_healthy] using this
  refine ⟨?_, ?_, hfirst, ?_⟩
  · simpa [wait_until_openwebui_is_healthy] using
      healthLoop_attempts_le polls 120 0
  · rintro ⟨k, hk, hs⟩
    have hex : ∃ n, pollSucceeds (polls n) = true := ⟨k, hs⟩
    have hmle : Nat.find hex ≤ k := Nat.find_min' hex hs
    have hres := hfirst (Nat.find hex) (by omega) (Nat.find_spec hex)
      (fun j hj => by
        have := Nat.find_min hex hj
        simpa using this)
    rw [hres]
  · intro hfail
    have := healthLoop_all_fail polls 120 0 (by intro k hk; simpa using hfail k hk)
    simpa [wait_until_openwebui_is_healthy] using this

/-- Witness for C1: with a poll oracle whose attempts 0 and 1 fail by
transport error and whose attempt 2 decodes to a true status, the gate
succeeds on the third attempt after two 1-second sleeps. -/
theorem c1_witness :
    wait_until_openwebui_is_healthy
        (fun k => if k = 2 then PollOutcome.status true else PollOutcome.transportError) =
      { result := Except.ok (), attempts := 3, sleepSeconds := 2 } :=
  (c1_health_gate_first_success_bounded
      (fun k => if k = 2 then PollOutcome.status true else PollOutcome.transportError)).2.2.1
    2 (by decide) (by decide) (by decide)

/- ### C2 (corrected) -/

/-- Counterexample for C2 as stated: with an oracle that always returns a
decoded body whose `status` is `false`, the gate exhausts its 120 attempts
and the error it returns is `AppError::GenericError("Startup took too
long")` — the generic/unclassified variant of the error taxonomy, not a
distinct startup-timeout variant (no such variant exists in `AppError`). -/
theorem c2_counterexample :
    (wait_until_openwebui_is_healthy (fun _ => PollOutcome.status false)).result =
        Except.error (AppError.GenericError "Startup took too long") ∧
      AppError.isGenericError (AppError.GenericError "Startup took too long") = true := by
  decide

/-- C2 amended: when the health gate exhausts its 120 attempts, it returns
an error carrying the distinct message "Startup took too long", but the
error is the generic/unclassified category (`AppError::GenericError`) of
the error taxonomy: `AppError` has no dedicated startup-timeout variant. -/
theorem c2_amended_timeout_is_generic (polls : Nat → PollOutcome)
    (hfail : ∀ k, k < 120 → pollSucceeds (polls k) = false) :
    (wait_until_openwebui_is_healthy polls).result =
        Except.error (AppError.GenericError "Startup took too long") ∧
      ∃ e, (wait_until_openwebui_is_healthy polls).result = Except.error e ∧
        e.isGenericError = true := by
  have := healthLoop_all_fail polls 120 0 (by intro k hk; simpa using hfail k hk)
  have hres : (wait_until_openwebui_is_healthy polls).result =
      Except.error (AppError.GenericError "Startup took too long") := by
    simpa [wait_until_openwebui_is_healthy] using congrArg HealthRun.result this
  exact ⟨hres, ⟨AppError.GenericError "Startup took too long", hres, rfl⟩⟩

/-- Witness for the amended C2: the always-false oracle exhausts the gate
and the returned error is the generic variant. -/
theorem c2_amended_witness :
    (wait_until_openwebui_is_healthy (fun _ => PollOutcome.status false)).result =
        Except.error (AppError.GenericError "Startup took too long") ∧
      ∃ e, (wait_until_openwebui_is_healthy (fun _ => PollOutcome.status false)).result =
          Except.error e ∧ e.isGenericError = true :=
  c2_amended_timeout_is_generic (fun _ => PollOutcome.status false) (by decide)

/- ### C9 -/

/-- C9: deserializing a configuration whose `openwebui_image_tag` field is
absent defaults it to "latest", an absent `tika_image_tag` defaults to
"latest-full", `extra_backend_services` is optional and passes through
(absent deserializes to `None`, i.e. no extra services), and the `Default`
instance of the configuration yields exactly these values. -/
theorem c9_config_defaults :
    deserializeLlmChatConfig { openwebui_image_tag := none, tika_image_tag := none
                               extra_backend_services := none } =
      { openwebui_image_tag := "latest", tika_image_tag := "latest-full"
        extra_backend_services := none } ∧
    (∀ r : RawLlmChatConfigFields, r.openwebui_image_tag = none →
      (deserializeLlmChatConfig r).openwebui_image_tag = "latest") ∧
    (∀ r : RawLlmChatConfigFields, r.tika_image_tag = none →
      (deserializeLlmChatConfig r).tika_image_tag = "latest-full") ∧
    (∀ r : RawLlmChatConfigFields,
      (deserializeLlmChatConfig r).extra_backend_services = r.extra_backend_services) ∧
    LlmChatConfig.default =
      { openwebui_image_tag := "latest", tika_image_tag := "latest-full"
        extra_backend_services := none } := by
  refine ⟨rfl, ?_, ?_, fun r => rfl, rfl⟩
  · intro r h
    simp [deserializeLlmChatConfig, h, openwebui_image_tag_default]
  · intro r h
    simp [deserializeLlmChatConfig, h, tika_image_tag_default]

/-- Witness for C9: the defaulting conjuncts applied to the all-absent raw
document. -/
theorem c9_witness :
    (deserializeLlmChatConfig { openwebui_image_tag := none, tika_image_tag := none
                                extra_backend_services := none }).openwebui_image_tag =
        "latest" ∧
      (deserializeLlmChatConfig { openwebui_image_tag := none, tika_image_tag := none
                                  extra_backend_services := none }).tika_image_tag =
        "latest-full" :=
  ⟨c9_config_defaults.2.1 _ rfl, c9_config_defaults.2.2.1 _ rfl⟩

/- ### C7 -/

/-- C7: for any configuration and data directory, the primary-service
container spec uses the image `ghcr.io/open-webui/open-webui:<tag>` with
the configured tag, its environment carries the operating-mode flag
`ENV=dev` and the authentication-disable flag `WEBUI_AUTH=false`, it joins
both the `local_llm_frontend` and `local_llm_backend` networks, it exposes
internal port `8080/tcp` and publishes it to the fixed host port `11690`,
it bind-mounts the caller-provided host data directory at the fixed
in-container path `/app/backend/data`, and the container is named
`local_llm_openwebui`. -/
theorem c7_openwebui_container_spec (cfg : LlmChatConfig) (data_dir : String) :
    (openwebuiContainerBody cfg data_dir).image =
        some ("ghcr.io/open-webui/open-webui:" ++ cfg.openwebui_image_tag) ∧
      "ENV=dev" ∈ ((openwebuiContainerBody cfg data_dir).env.getD []) ∧
      "WEBUI_AUTH=false" ∈ ((openwebuiContainerBody cfg data_dir).env.getD []) ∧
      (openwebuiContainerBody cfg data_dir).networks =
        some ["local_llm_frontend", "local_llm_backend"] ∧
      (openwebuiContainerBody cfg data_dir).exposed_ports = some ["8080/tcp"] ∧
      (openwebuiContainerBody cfg data_dir).host_config.map HostConfig.port_bindings =
        some (some [("8080/tcp",
          some [{ host_ip := none, host_port := some "11690" }])]) ∧
      (openwebuiContainerBody cfg data_dir).host_config.map HostConfig.binds =
        some (some [data_dir ++ ":/app/backend/data"]) ∧
      openwebuiContainerName = "local_llm_openwebui" := by
  refine ⟨rfl, ?_, ?_, rfl, rfl, rfl, rfl, rfl⟩ <;>
    simp [openwebuiContainerBody, ContainerCreateBody.default]

/- ### C8 -/

/-- C8: for any configuration, the auxiliary-service container spec uses
the image `docker.io/apache/tika:<tag>` with the configured tag, joins
only the `local_llm_backend` network, exposes internal port `9998/tcp`
with no host port binding (its spec carries no host config at all, hence
no port bindings), and the container is named `local_llm_tika`. -/
theorem c8_tika_container_spec (cfg : LlmChatConfig) :
    (tikaContainerBody cfg).image =
        some ("docker.io/apache/tika:" ++ cfg.tika_image_tag) ∧
      (tikaContainerBody cfg).networks = some ["local_llm_backend"] ∧
      (tikaContainerBody cfg).exposed_ports = some ["9998/tcp"] ∧
      (tikaContainerBody cfg).host_config = none ∧
      tikaContainerName = "local_llm_tika" :=
  ⟨rfl, rfl, rfl, rfl, rfl⟩

/- ### C5 -/

/-- C5: for every extra service, the derived container spec joins only the
backend network, carries the service's ports verbatim as exposed ports,
never publishes a host port (any host config it carries has no port
bindings), translates each volume binding 1:1 into a
`hostPath:containerPath` bind string, passes image, environment, command,
user and working directory through unmodified, and names the container
`local_llm_<name>`; in particular, for ports `["7000/tcp"]` and the single
binding `{host_path: "/tmp/x", container_path: "/data"}` the spec exposes
`7000/tcp` unbound and binds `"/tmp/x:/data"`. -/
theorem c5_extra_service_container_spec (svc : LlmChatConfigExtraBackendService) :
    (extraServiceContainerBody svc).networks = some ["local_llm_backend"] ∧
      (extraServiceContainerBody svc).exposed_ports = some (svc.ports.getD []) ∧
      (∀ hc, (extraServiceContainerBody svc).host_config = some hc →
        hc.port_bindings = none) ∧
      (extraServiceContainerBody svc).host_config =
        svc.volume_bindings.map (fun vbs =>
          { binds := some (vbs.map fun v => v.host_path ++ ":" ++ v.container_path)
            port_bindings := none }) ∧
      (extraServiceContainerBody svc).image = some svc.image ∧
      (extraServiceContainerBody svc).cmd = svc.cmd ∧
      (extraServiceContainerBody svc).env = svc.env ∧
      (extraServiceContainerBody svc).user = svc.user ∧
      (extraServiceContainerBody svc).working_dir = svc.working_directory ∧
      extraServiceContainerName svc = "local_llm_" ++ svc.name ∧
      (extraServiceContainerBody
          { name := "x", image := "img", cmd := none, env := none, user := none
            ports := some ["7000/tcp"]
            volume_bindings := some [{ host_path := "/tmp/x", container_path := "/data" }]
            working_directory := none }).exposed_ports = some ["7000/tcp"] ∧
      (extraServiceContainerBody
          { name := "x", image := "img", cmd := none, env := none, user := none
            ports := some ["7000/tcp"]
            volume_bindings := some [{ host_path := "/tmp/x", container_path := "/data" }]
            working_directory := none }).host_config =
        some { binds := some ["/tmp/x:/data"], port_bindings := none } := by
  refine ⟨rfl, rfl, ?_, ?_, rfl, rfl, rfl, rfl, rfl, rfl, rfl, rfl⟩
  · intro hc h
    have h' : (svc.volume_bindings.map fun vbs =>
        ({ binds := some (vbs.map volumeBindString),
           port_bindings := none } : HostConfig)) = some hc := h
    cases hvb : svc.volume_bindings with
    | none => rw [hvb] at h'; exact Option.noConfusion h'
    | some vbs =>
      rw [hvb] at h'
      have h2 : some ({ binds := some (vbs.map volumeBindString)
                        port_bindings := none } : HostConfig) = some hc := h'
      rw [← Option.some.inj h2]
  · cases hvb : svc.volume_bindings <;>
      simp [extraServiceContainerBody, ContainerCreateBody.default, volumeBindString, hvb]

/-- Witness for C5: the no-host-port-binding conjunct applied to the
concrete example service from the claim. -/
theorem c5_witness :
    HostConfig.port_bindings { binds := some ["/tmp/x:/data"], port_bindings := none } =
      none :=
  (c5_extra_service_container_spec
      { name := "x", image := "img", cmd := none, env := none, user := none
        ports := some ["7000/tcp"]
        volume_bindings := some [{ host_path := "/tmp/x", container_path := "/data" }]
        working_directory := none }).2.2.1
    { binds := some ["/tmp/x:/data"], port_bindings := none } rfl

/- ### C10 -/

/-- C10: in the run workflow, when `create_infrastructure` fails,
`cleanup_infrastructure` is invoked before returning; if that rollback
cleanup succeeds the original provisioning error is returned, but if the
cleanup itself fails, the error returned to the caller is the cleanup's
error — when the two errors differ, the provisioning failure is silently
replaced; and when provisioning succeeds no rollback cleanup runs. -/
theorem c10_rollback_error_replacement (e ce : AppError)
    (cleanupRes : Except AppError Unit) :
    (runProvisioningPhase (Except.error e) cleanupRes).1 = true ∧
      runProvisioningPhase (Except.error e) (Except.ok ()) = (true, Except.error e) ∧
      runProvisioningPhase (Except.error e) (Except.error ce) = (true, Except.error ce) ∧
      (ce ≠ e →
        (runProvisioningPhase (Except.error e) (Except.error ce)).2 ≠ Except.error e) ∧
      runProvisioningPhase (Except.ok ()) cleanupRes = (false, Except.ok ()) := by
  refine ⟨?_, rfl, rfl, ?_, rfl⟩
  · cases cleanupRes <;> rfl
  · intro hne h
    exact hne (by simpa [runProvisioningPhase] using h)

/-- Witness for C10: with a Docker provisioning error and a distinct
generic cleanup error, the result of the phase is not the original
provisioning error. -/
theorem c10_witness :
    (runProvisioningPhase (Except.error (AppError.DockerError "create failed"))
          (Except.error (AppError.GenericError "cleanup failed"))).2 ≠
      Except.error (AppError.DockerError "create failed") :=
  (c10_rollback_error_replacement (AppError.DockerError "create failed")
      (AppError.GenericError "cleanup failed") (Except.ok ())).2.2.2.1 (by decide)

/- ### Helper lemmas: engine-op executor -/

theorem runEngineOps_isPrefixOf (exec : EngineOp → Except AppError Unit) :
    ∀ l : List EngineOp, ∃ rest, (runEngineOps exec l).1 ++ rest = l := by
  intro l
  induction l with
  | nil => exact ⟨[], rfl⟩
  | cons op rest ih =>
    cases hop : exec op with
    | ok u => obtain ⟨r, hr⟩ := ih; exact ⟨r, by simp [runEngineOps, hop, hr]⟩
    | error e => exact ⟨rest, by simp [runEngineOps, hop]⟩

theorem runEngineOps_all_ok (exec : EngineOp → Except AppError Unit) :
    ∀ l : List EngineOp, (∀ op ∈ l, exec op = .ok ()) →
      runEngineOps exec l = (l, .ok ()) := by
  intro l
  induction l with
  | nil => intro _; rfl
  | cons op rest ih =>
    intro h
    have hop : exec op = .ok () := h op (List.mem_cons_self op rest)
    have hrec := ih fun x hx => h x (List.mem_cons_of_mem op hx)
    simp [runEngineOps, hop, hrec]

theorem runEngineOps_first_fail (exec : EngineOp → Except AppError Unit) :
    ∀ (pre : List EngineOp) (op : EngineOp) (post : List EngineOp) (e : AppError),
      (∀ x ∈ pre, exec x = .ok ()) → exec op = .error e →
      runEngineOps exec (pre ++ op :: post) = (pre ++ [op], .error e) := by
  intro pre
  induction pre with
  | nil => intro op post e _ hop; simp [runEngineOps, hop]
  | cons x xs ih =>
    intro op post e hpre hop
    have hx : exec x = .ok () := hpre x (List.mem_cons_self x xs)
    have hrec := ih op post e (fun y hy => hpre y (List.mem_cons_of_mem x hy)) hop
    simp [runEngineOps, hx, hrec]

theorem infrastructureOps_no_teardown (cfg : LlmChatConfig) (data_dir : String) :
    ∀ op ∈ infrastructureOps cfg data_dir, op.isTeardown = false := by
  intro op hop
  simp only [infrastructureOps, List.mem_append, List.mem_flatMap,
    List.mem_cons, List.not_mem_nil, or_false] at hop
  rcases hop with (h | h | h | h | h | h) | ⟨svc, _, h | h⟩ <;> subst h <;> rfl

/- ### C3 -/

/-- C3: `create_infrastructure` plans exactly this fixed call order —
frontend network (bridge driver, with the driver option binding published
host ports to 127.0.0.1), backend network (default driver, no options),
create-and-start the Open WebUI container, create-and-start the Tika
container, then create-and-start one container per extra service in
config-list order; the calls actually issued are always a prefix of that
plan, a fully successful run issues all of them, the first failing call
returns its error immediately with nothing after it issued, and no issued
call is a teardown (stop/remove) call: no rollback happens inside
`create_infrastructure`. -/
theorem c3_create_infrastructure_fixed_order (exec : EngineOp → Except AppError Unit)
    (cfg : LlmChatConfig) (data_dir : String) :
    infrastructureOps cfg data_dir =
      [EngineOp.createNetwork
          { name := "local_llm_frontend", driver := some "bridge"
            options := some [("com.docker.network.bridge.host_binding_ipv4", "127.0.0.1")] },
        EngineOp.createNetwork
          { name := "local_llm_backend", driver := none, options := none },
        EngineOp.createContainer "local_llm_openwebui" (openwebuiContainerBody cfg data_dir),
        EngineOp.startContainer "local_llm_openwebui",
        EngineOp.createContainer "local_llm_tika" (tikaContainerBody cfg),
        EngineOp.startContainer "local_llm_tika"] ++
      (cfg.extra_backend_services.getD []).flatMap (fun svc =>
        [EngineOp.createContainer ("local_llm_" ++ svc.name) (extraServiceContainerBody svc),
         EngineOp.startContainer ("local_llm_" ++ svc.name)]) ∧
    (∃ rest, (create_infrastructure exec cfg data_dir).1 ++ rest =
      infrastructureOps cfg data_dir) ∧
    ((∀ op ∈ infrastructureOps cfg data_dir, exec op = .ok ()) →
      create_infrastructure exec cfg data_dir = (infrastructureOps cfg data_dir, .ok ())) ∧
    (∀ (pre : List EngineOp) (op : EngineOp) (post : List EngineOp) (e : AppError),
      infrastructureOps cfg data_dir = pre ++ op :: post →
      (∀ x ∈ pre, exec x = .ok ()) → exec op = .error e →
      create_infrastructure exec cfg data_dir = (pre ++ [op], .error e)) ∧
    (∀ op ∈ (create_infrastructure exec cfg data_dir).1, op.isTeardown = false) := by
  refine ⟨rfl, runEngineOps_isPrefixOf exec _, runEngineOps_all_ok exec _, ?_, ?_⟩
  · intro pre op post e hplan hpre hop
    show runEngineOps exec (infrastructureOps cfg data_dir) = (pre ++ [op], .error e)
    rw [hplan]
    exact runEngineOps_first_fail exec pre op post e hpre hop
  · intro op hop
    obtain ⟨rest, hr⟩ := runEngineOps_isPrefixOf exec (infrastructureOps cfg data_dir)
    exact infrastructureOps_no_teardown cfg data_dir op
      (hr ▸ List.mem_append_left rest hop)

/-- Witness for C3: with the default config and an engine that accepts
every call, all six planned calls are issued; with an engine that rejects
the Tika start call, the run stops right after it with that error. -/
theorem c3_witness :
    create_infrastructure (fun _ => Except.ok ())
        { openwebui_image_tag := "latest", tika_image_tag := "latest-full"
          extra_backend_services := none } "/data" =
      (infrastructureOps
        { openwebui_image_tag := "latest", tika_image_tag := "latest-full"
          extra_backend_services := none } "/data", Except.ok ()) ∧
    create_infrastructure
        (fun op => if op = EngineOp.startContainer "local_llm_tika" then
          Except.error (AppError.DockerError "boom") else Except.ok ())
        { openwebui_image_tag := "latest", tika_image_tag := "latest-full"
          extra_backend_services := none } "/data" =
      ([EngineOp.createNetwork frontendNetworkRequest,
        EngineOp.createNetwork backendNetworkRequest,
        EngineOp.createContainer "local_llm_openwebui"
          (openwebuiContainerBody
            { openwebui_image_tag := "latest", tika_image_tag := "latest-full"
              extra_backend_services := none } "/data"),
        EngineOp.startContainer "local_llm_openwebui",
        EngineOp.createContainer "local_llm_tika"
          (tikaContainerBody
            { openwebui_image_tag := "latest", tika_image_tag := "latest-full"
              extra_backend_services := none })] ++
        [EngineOp.startContainer "local_llm_tika"], Except.error (AppError.DockerError "boom")) :=
  ⟨(c3_create_infrastructure_fixed_order (fun _ => Except.ok ())
      { openwebui_image_tag := "latest", tika_image_tag := "latest-full"
        extra_backend_services := none } "/data").2.2.1 (fun _ _ => rfl),
   (c3_create_infrastructure_fixed_order
      (fun op => if op = EngineOp.startContainer "local_llm_tika" then
        Except.error (AppError.DockerError "boom") else Except.ok ())
      { openwebui_image_tag := "latest", tika_image_tag := "latest-full"
        extra_backend_services := none } "/data").2.2.2.1
     [EngineOp.createNetwork frontendNetworkRequest,
      EngineOp.createNetwork backendNetworkRequest,
      EngineOp.createContainer "local_llm_openwebui"
        (openwebuiContainerBody
          { openwebui_image_tag := "latest", tika_image_tag := "latest-full"
            extra_backend_services := none } "/data"),
      EngineOp.startContainer "local_llm_openwebui",
      EngineOp.createContainer "local_llm_tika"
        (tikaContainerBody
          { openwebui_image_tag := "latest", tika_image_tag := "latest-full"
            extra_backend_services := none })]
     (EngineOp.startContainer "local_llm_tika") [] (AppError.DockerError "boom")
     rfl (by decide) (by decide)⟩

/- ### Helper lemmas: teardown loops -/

theorem deleteContainersLoop_stop_irrelevant
    (s1 s2 rm : String → Except AppError Unit) :
    ∀ l : List String, deleteContainersLoop s1 rm l = deleteContainersLoop s2 rm l := by
  intro l
  induction l with
  | nil => rfl
  | cons raw rest ih =>
    cases h : rm (trimSlashes raw) <;> simp [deleteContainersLoop, h, ih]

theorem deleteContainersLoop_all_ok (s rm : String → Except AppError Unit) :
    ∀ l : List String, (∀ c ∈ l, rm (trimSlashes c) = .ok ()) →
      deleteContainersLoop s rm l =
        (l.flatMap fun c =>
          [EngineOp.stopContainer (trimSlashes c),
           EngineOp.removeContainer (trimSlashes c) true], .ok ()) := by
  intro l
  induction l with
  | nil => intro _; rfl
  | cons raw rest ih =>
    intro h
    have hr : rm (trimSlashes raw) = .ok () := h raw (List.mem_cons_self raw rest)
    have hrec := ih fun x hx => h x (List.mem_cons_of_mem raw hx)
    simp [deleteContainersLoop, hr, hrec]

theorem deleteContainersLoop_first_fail (s rm : String → Except AppError Unit) :
    ∀ (pre : List String) (c : String) (post : List String) (e : AppError),
      (∀ x ∈ pre, rm (trimSlashes x) = .ok ()) → rm (trimSlashes c) = .error e →
      deleteContainersLoop s rm (pre ++ c :: post) =
        ((pre.flatMap fun x =>
            [EngineOp.stopContainer (trimSlashes x),
             EngineOp.removeContainer (trimSlashes x) true]) ++
          [EngineOp.stopContainer (trimSlashes c),
           EngineOp.removeContainer (trimSlashes c) true], .error e) := by
  intro pre
  induction pre with
  | nil => intro c post e _ hc; simp [deleteContainersLoop, hc]
  | cons x xs ih =>
    intro c post e hpre hc
    have hx : rm (trimSlashes x) = .ok () := hpre x (List.mem_cons_self x xs)
    have hrec := ih c post e (fun y hy => hpre y (List.mem_cons_of_mem x hy)) hc
    simp [deleteContainersLoop, hx, hrec]

theorem deleteNetworksLoop_all_ok (rm : String → Except AppError Unit) :
    ∀ l : List String, (∀ n ∈ l, rm n = .ok ()) →
      deleteNetworksLoop rm l = (l.map EngineOp.removeNetwork, .ok ()) := by
  intro l
  induction l with
  | nil => intro _; rfl
  | cons n rest ih =>
    intro h
    have hn : rm n = .ok () := h n (List.mem_cons_self n rest)
    have hrec := ih fun x hx => h x (List.mem_cons_of_mem n hx)
    simp [deleteNetworksLoop, hn, hrec]

theorem deleteNetworksLoop_first_fail (rm : String → Except AppError Unit) :
    ∀ (pre : List String) (n : String) (post : List String) (e : AppError),
      (∀ x ∈ pre, rm x = .ok ()) → rm n = .error e →
      deleteNetworksLoop rm (pre ++ n :: post) =
        (pre.map EngineOp.removeNetwork ++ [EngineOp.removeNetwork n], .error e) := by
  intro pre
  induction pre with
  | nil => intro n post e _ hn; simp [deleteNetworksLoop, hn]
  | cons x xs ih =>
    intro n post e hpre hn
    have hx : rm x = .ok () := hpre x (List.mem_cons_self x xs)
    have hrec := ih n post e (fun y hy => hpre y (List.mem_cons_of_mem x hy)) hn
    simp [deleteNetworksLoop, hx, hrec]

/- ### C4 -/

/-- C4: during container teardown a stop is attempted for every matched
container and the stop call's outcome never influences the run (any stop
failure is ignored and execution continues to the force-remove), every
matched container is stopped-then-removed when all removals succeed, a
failing force-remove returns its error with no further matched container
processed, and in network teardown a failing removal likewise returns its
error with no further matched network processed. -/
theorem c4_teardown_stop_soft_remove_hard :
    (∀ (s1 s2 rm : String → Except AppError Unit) (l : List String),
      delete_containers l s1 rm = delete_containers l s2 rm) ∧
    (∀ (s rm : String → Except AppError Unit) (l : List String),
      (∀ c ∈ l, rm (trimSlashes c) = .ok ()) →
      delete_containers l s rm =
        (l.flatMap fun c =>
          [EngineOp.stopContainer (trimSlashes c),
           EngineOp.removeContainer (trimSlashes c) true], .ok ())) ∧
    (∀ (s rm : String → Except AppError Unit) (pre : List String) (c : String)
        (post : List String) (e : AppError),
      (∀ x ∈ pre, rm (trimSlashes x) = .ok ()) → rm (trimSlashes c) = .error e →
      delete_containers (pre ++ c :: post) s rm =
        ((pre.flatMap fun x =>
            [EngineOp.stopContainer (trimSlashes x),
             EngineOp.removeContainer (trimSlashes x) true]) ++
          [EngineOp.stopContainer (trimSlashes c),
           EngineOp.removeContainer (trimSlashes c) true], .error e)) ∧
    (∀ (rm : String → Except AppError Unit) (l : List String),
      (∀ n ∈ l, rm n = .ok ()) →
      delete_networks l rm = (l.map EngineOp.removeNetwork, .ok ())) ∧
    (∀ (rm : String → Except AppError Unit) (pre : List String) (n : String)
        (post : List String) (e : AppError),
      (∀ x ∈ pre, rm x = .ok ()) → rm n = .error e →
      delete_networks (pre ++ n :: post) rm =
        (pre.map EngineOp.removeNetwork ++ [EngineOp.removeNetwork n], .error e)) :=
  ⟨fun s1 s2 rm l => deleteContainersLoop_stop_irrelevant s1 s2 rm l,
   fun s rm l h => deleteContainersLoop_all_ok s rm l h,
   fun s rm pre c post e hpre hc => deleteContainersLoop_first_fail s rm pre c post e hpre hc,
   fun rm l h => deleteNetworksLoop_all_ok rm l h,
   fun rm pre n post e hpre hn => deleteNetworksLoop_first_fail rm pre n post e hpre hn⟩

/-- Witness for C4: with two matched containers whose stop calls always
fail, the first container is stopped and removed, the second container's
force-remove fails and teardown returns that error; similarly the backend
network's removal failure aborts network teardown after the frontend
network was removed. -/
theorem c4_witness :
    delete_containers ["/local_llm_openwebui", "/local_llm_tika"]
        (fun _ => Except.error (AppError.DockerError "already stopped"))
        (fun c => if c = "local_llm_tika" then
          Except.error (AppError.DockerError "remove failed") else Except.ok ()) =
      ([EngineOp.stopContainer "local_llm_openwebui",
        EngineOp.removeContainer "local_llm_openwebui" true] ++
        [EngineOp.stopContainer "local_llm_tika",
         EngineOp.removeContainer "local_llm_tika" true],
        Except.error (AppError.DockerError "remove failed")) ∧
    delete_networks ["local_llm_frontend", "local_llm_backend"]
        (fun n => if n = "local_llm_backend" then
          Except.error (AppError.DockerError "network busy") else Except.ok ()) =
      ([EngineOp.removeNetwork "local_llm_frontend"] ++
        [EngineOp.removeNetwork "local_llm_backend"],
        Except.error (AppError.DockerError "network busy")) :=
  ⟨c4_teardown_stop_soft_remove_hard.2.2.1
      (fun _ => Except.error (AppError.DockerError "already stopped"))
      (fun c => if c = "local_llm_tika" then
        Except.error (AppError.DockerError "remove failed") else Except.ok ())
      ["/local_llm_openwebui"] "/local_llm_tika" []
      (AppError.DockerError "remove failed") (by decide) (by decide),
   c4_teardown_stop_soft_remove_hard.2.2.2.2
      (fun n => if n = "local_llm_backend" then
        Except.error (AppError.DockerError "network busy") else Except.ok ())
      ["local_llm_frontend"] "local_llm_backend" []
      (AppError.DockerError "network busy") (by decide) (by decide)⟩

/- ### Helper lemmas: image pulls -/

theorem pullImagesLoop_all_ok (streams : String → List (Except AppError PullProgress)) :
    ∀ l : List String, (∀ img ∈ l, pull_image (streams img) = .ok ()) →
      pullImagesLoop streams l = (l, .ok ()) := by
  intro l
  induction l with
  | nil => intro _; rfl
  | cons img rest ih =>
    intro h
    have himg : pull_image (streams img) = .ok () := h img (List.mem_cons_self img rest)
    have hrec := ih fun x hx => h x (List.mem_cons_of_mem img hx)
    simp [pullImagesLoop, himg, hrec]

theorem pullImagesLoop_first_fail (streams : String → List (Except AppError PullProgress)) :
    ∀ (pre : List String) (img : String) (post : List String) (e : AppError),
      (∀ x ∈ pre, pull_image (streams x) = .ok ()) →
      pull_image (streams img) = .error e →
      pullImagesLoop streams (pre ++ img :: post) = (pre ++ [img], .error e) := by
  intro pre
  induction pre with
  | nil => intro img post e _ himg; simp [pullImagesLoop, himg]
  | cons x xs ih =>
    intro img post e hpre himg
    have hx : pull_image (streams x) = .ok () := hpre x (List.mem_cons_self x xs)
    have hrec := ih img post e (fun y hy => hpre y (List.mem_cons_of_mem x hy)) himg
    simp [pullImagesLoop, hx, hrec]

theorem pull_image_first_error :
    ∀ (oks : List (Except AppError PullProgress)) (e : AppError)
      (rest : List (Except AppError PullProgress)),
      (∀ x ∈ oks, ∃ p, x = Except.ok p) →
      pull_image (oks ++ Except.error e :: rest) = .error e := by
  intro oks
  induction oks with
  | nil => intro e rest _; rfl
  | cons x xs ih =>
    intro e rest h
    obtain ⟨p, hp⟩ := h x (List.mem_cons_self x xs)
    subst hp
    exact ih e rest fun y hy => h y (List.mem_cons_of_mem _ hy)

/- ### C6 -/

/-- C6: the image provisioner's set of image references is exactly the
primary image (Open WebUI base plus configured tag), the auxiliary image
(Tika base plus configured tag) and each extra service's image; a pull is
requested for every image in that list unconditionally — the code never
checks local presence, so the request happens even if the image is
already present — and the first pull that fails returns its error
immediately, with no pull requested for the remaining images and no retry
of any image; inside a single pull, the first erroneous record of the
progress stream (a mid-stream decode/transport error) makes that pull
fail with that error. -/
theorem c6_pull_required_images_policy (cfg : LlmChatConfig)
    (streams : String → List (Except AppError PullProgress)) :
    (∀ img, img ∈ requiredImages cfg ↔
      (img = openwebuiImage cfg ∨ img = tikaImage cfg ∨
        ∃ svc ∈ cfg.extra_backend_services.getD [], svc.image = img)) ∧
    ((∀ img ∈ requiredImages cfg, pull_image (streams img) = .ok ()) →
      pull_required_images streams cfg = (requiredImages cfg, .ok ())) ∧
    (∀ (pre : List String) (img : String) (post : List String) (e : AppError),
      requiredImages cfg = pre ++ img :: post →
      (∀ x ∈ pre, pull_image (streams x) = .ok ()) →
      pull_image (streams img) = .error e →
      pull_required_images streams cfg = (pre ++ [img], .error e)) ∧
    (∀ (oks : List (Except AppError PullProgress)) (e : AppError)
        (rest : List (Except AppError PullProgress)),
      (∀ x ∈ oks, ∃ p, x = Except.ok p) →
      pull_image (oks ++ Except.error e :: rest) = .error e) := by
  refine ⟨?_, pullImagesLoop_all_ok streams _, ?_, pull_image_first_error⟩
  · intro img
    simp [requiredImages, List.mem_map, eq_comm]
  · intro pre img post e hplan hpre himg
    show pullImagesLoop streams (requiredImages cfg) = (pre ++ [img], .error e)
    rw [hplan]
    exact pullImagesLoop_first_fail streams pre img post e hpre himg

/-- Witness for C6: with one extra service, a clean Open WebUI pull
stream, and a Tika pull stream whose second record is a mid-stream error,
provisioning requests the Open WebUI and Tika pulls, fails with the Tika
stream's error, and never requests the extra service's pull; the
mid-stream conjunct is applied to that Tika stream. -/
theorem c6_witness :
    pull_required_images
        (fun img => if img = "docker.io/apache/tika:latest-full" then
          [Except.ok { id := some "layer1", status := some "Downloading" },
           Except.error (AppError.DockerError "stream broke")] else [])
        { openwebui_image_tag := "latest", tika_image_tag := "latest-full"
          extra_backend_services := some
            [{ name := "svc", image := "docker.io/library/redis:7", cmd := none
               env := none, user := none, ports := none, volume_bindings := none
               working_directory := none }] } =
      (["ghcr.io/open-webui/open-webui:latest"] ++ ["docker.io/apache/tika:latest-full"],
        Except.error (AppError.DockerError "stream broke")) ∧
    pull_image
        ([Except.ok { id := some "layer1", status := some "Downloading" }] ++
          Except.error (AppError.DockerError "stream broke") :: []) =
      Except.error (AppError.DockerError "stream broke") :=
  ⟨(c6_pull_required_images_policy
      { openwebui_image_tag := "latest", tika_image_tag := "latest-full"
        extra_backend_services := some
          [{ name := "svc", image := "docker.io/library/redis:7", cmd := none
             env := none, user := none, ports := none, volume_bindings := none
             working_directory := none }] }
      (fun img => if img = "docker.io/apache/tika:latest-full" then
        [Except.ok { id := some "layer1", status := some "Downloading" },
         Except.error (AppError.DockerError "stream broke")] else [])).2.2.1
    ["ghcr.io/open-webui/open-webui:latest"] "docker.io/apache/tika:latest-full"
    ["docker.io/library/redis:7"] (AppError.DockerError "stream broke")
    rfl (by decide) (by decide),
   (c6_pull_required_images_policy
      { openwebui_image_tag := "latest", tika_image_tag := "latest-full"
        extra_backend_services := none }
      (fun _ => [])).2.2.2
    [Except.ok { id := some "layer1", status := some "Downloading" }]
    (AppError.DockerError "stream broke") []
    (by intro x hx; exact ⟨{ id := some "layer1", status := some "Downloading" },
      by simpa using hx⟩)⟩

end LocalLlmChat
